import Mathlib

/-!
Formal model of the arbitrage trade-execution pipeline of this repository:
TradeExecutor.executeArbitrageTrade and TradeExecutor.validateOpportunity
from src/unnamed/part_000, and the DexAggregator quote source from
src/server/dexAggregator.ts.

Modelling conventions:
- Collaborators (config store, web3 provider, activity log, transaction
  store, telegram channel, quote builder) are explicit oracle behaviors
  collected in a Collab structure.  Log, record and telegram writes are
  indexed by call count, which is fully general for this sequential,
  deterministic pipeline.
- A JavaScript exception is an explicit error value threaded through an
  Except; the outer try/catch of executeArbitrageTrade is the catchBlock
  function, and the inner try/catch of the balance step is balanceTry.
- Machine numbers are idealised as rationals; parseFloat and toString on
  numeric data are the identity, and the toFixed roundings of the demo
  quote path are modelled as exact decimal rounding.
- The JavaScript truthiness of the defaulting idioms, e.g.
  config.maxGasPriceGwei or-else 60 where a configured 0 is falsy, and
  config.privateKey or-else env where an empty string is falsy, is
  modelled explicitly by jsNumOr and jsStrOr.
- The executionTime field of the result and the free-text log/notification
  messages are not modelled; log entries keep their level and the step tag
  the source writes into the log metadata, and thrown errors are modelled
  by the PErr inductive, one constructor per distinct error template of
  the source.
-/

attribute [local semireducible] Rat.mul Rat.add Rat.sub Rat.inv

abbrev Err := String

/-- Token metadata as carried by an ArbitrageOpportunity (opportunityScanner). -/
structure Token where
  symbol : String
  address : String
  decimals : Nat
deriving DecidableEq, Repr

/-- ArbitrageOpportunity, the input record consumed by the pipeline. -/
structure ArbitrageOpportunity where
  id : String
  tokenIn : Token
  tokenOut : Token
  buyDex : String
  sellDex : String
  flashLoanAmount : ℚ
  estimatedProfitUsd : ℚ
  estimatedGasCostUsd : ℚ
  netProfitPercent : ℚ
  timestamp : Int
deriving DecidableEq, Repr

/-- BotConfig as read from the configuration store.  Optional fields model
JavaScript null/undefined. -/
structure BotConfig where
  enableRealTrading : Bool
  privateKey : Option String
  networkMode : String
  maxGasPriceGwei : Option ℚ
  minNetProfitPercent : Option ℚ
  telegramProfitThresholdUsd : Option ℚ
  oneinchApiKey : Option String
deriving DecidableEq, Repr

/-- JavaScript a or-else b for numeric a: null, undefined and 0 are falsy. -/
def jsNumOr (a : Option ℚ) (d : ℚ) : ℚ :=
  match a with
  | some v => if v = 0 then d else v
  | none => d

/-- JavaScript a or-else b for string a: null, undefined and the empty
string are falsy. -/
def jsStrOr (a b : Option String) : Option String :=
  match a with
  | some s => if s = "" then b else some s
  | none => b

/-- JavaScript truthiness of a string or-undefined value. -/
def jsTruthyStr : Option String → Bool
  | none => false
  | some s => !(s == "")

/-- Distinct error templates thrown inside executeArbitrageTrade, plus a
constructor for an error thrown by a collaborator call itself. -/
inductive PErr where
  | configNotFound
  | realTradingDisabled
  | privateKeyMissing
  | insufficientMatic (balance : ℚ)
  | gasTooHigh (gas : ℚ) (maxCfg : Option ℚ)
  | collab (e : Err)
deriving DecidableEq, Repr

/-- Structured stand-in for the human-readable result message. -/
inductive RMsg where
  | simSuccess (profit : ℚ)
  | realSuccess (txHash : String)
  | failed (e : PErr)
deriving DecidableEq, Repr

/-- TradeExecutionResult; executionTime (wall-clock ms) is not modelled. -/
structure TradeExecutionResult where
  success : Bool
  txHash : Option String
  profitUsd : Option ℚ
  gasCostUsd : Option ℚ
  message : RMsg
  error : Option PErr
deriving DecidableEq, Repr

/-- One activity-log entry: its level and the step tag the source puts in
the log metadata (or catch_error for the entry of the catch block). -/
structure LogEntry where
  level : String
  step : String
deriving DecidableEq, Repr

/-- One row of the transaction store, as passed to createArbitrageTransaction. -/
structure TxRecord where
  txHash : String
  tokenIn : String
  tokenOut : String
  amountIn : ℚ
  amountOut : ℚ
  profitUsd : ℚ
  gasCostUsd : ℚ
  netProfitUsd : ℚ
  status : String
  dexPath : String
deriving DecidableEq, Repr

/-- One call to the swap-transaction builder: source token, destination
token, amount, and the sender field (config.privateKey with the source's
non-null assertion, hence an Option). -/
structure SwapRequest where
  src : String
  dst : String
  amount : ℚ
  sender : Option String
deriving DecidableEq, Repr

/-- The part of a built swap consumed by the pipeline: its output amount. -/
structure SwapQuote where
  toAmount : ℚ
deriving DecidableEq, Repr

/-- Observable side effects of one invocation: audit-log entries, transaction
records, telegram notification categories, swap-builder calls, native-balance
queries (address and chain id) and the number of gas-price queries. -/
structure Effects where
  logs : List LogEntry
  records : List TxRecord
  notifications : List String
  swapCalls : List SwapRequest
  balanceCalls : List (String × Nat)
  gasCalls : Nat
deriving DecidableEq, Repr

def Effects.empty : Effects :=
  { logs := [], records := [], notifications := [], swapCalls := [],
    balanceCalls := [], gasCalls := 0 }

/-- Behaviors of all collaborators of one invocation.  Write-style
collaborators are indexed by call count; each call either succeeds or
throws an error. -/
structure Collab where
  getBotConfig : Except Err (Option BotConfig)
  envPrivateKey : Option String
  logOutcome : Nat → Except Err Unit
  deriveWallet : String → Except Err String
  getNativeBalance : String → Nat → Except Err ℚ
  getGasPrice : Except Err ℚ
  /-- Modelled from the spec: the real-trading path calls
  DexAggregator.buildSwapTransaction, which is absent from
  src/server/dexAggregator.ts (only its caller is in src/).  Per the spec
  the quote source builds a swap leg for a (src, dst, amount, from) tuple
  and yields a quote carrying an output amount; modelled as an oracle
  returning a SwapQuote or throwing. -/
  buildSwap : Nat → SwapRequest → Except Err SwapQuote
  recordOutcome : Nat → Except Err Unit
  notifyOutcome : Nat → Except Err Unit
  mockTxHash : String
  realTxHash : String

/-- Pipeline state: accumulated effects plus per-collaborator call counters. -/
structure PState where
  eff : Effects
  logIdx : Nat
  recIdx : Nat
  notIdx : Nat
deriving Repr

def initPState : PState :=
  { eff := Effects.empty, logIdx := 0, recIdx := 0, notIdx := 0 }

/-- Sequencing of pipeline steps: an exception short-circuits, carrying the
state at the point of the throw. -/
def pbind (x : Except (PErr × PState) PState)
    (f : PState → Except (PErr × PState) α) : Except (PErr × PState) α :=
  match x with
  | .ok s => f s
  | .error e => .error e

/-- One storage.createActivityLog call. -/
def pLog (c : Collab) (s : PState) (level step : String) :
    Except (PErr × PState) PState :=
  let s' := { s with logIdx := s.logIdx + 1 }
  match c.logOutcome s.logIdx with
  | .ok _ => .ok { s' with eff := { s'.eff with logs := s'.eff.logs ++ [⟨level, step⟩] } }
  | .error e => .error (.collab e, s')

/-- One storage.createArbitrageTransaction call. -/
def pRecord (c : Collab) (s : PState) (rec : TxRecord) :
    Except (PErr × PState) PState :=
  let s' := { s with recIdx := s.recIdx + 1 }
  match c.recordOutcome s.recIdx with
  | .ok _ => .ok { s' with eff := { s'.eff with records := s'.eff.records ++ [rec] } }
  | .error e => .error (.collab e, s')

/-- One sendTelegramMessage call; the category string is recorded. -/
def pNotify (c : Collab) (s : PState) (category : String) :
    Except (PErr × PState) PState :=
  let s' := { s with notIdx := s.notIdx + 1 }
  match c.notifyOutcome s.notIdx with
  | .ok _ => .ok { s' with eff := { s'.eff with notifications := s'.eff.notifications ++ [category] } }
  | .error e => .error (.collab e, s')

def dexPathOf (opp : ArbitrageOpportunity) : String :=
  opp.buyDex ++ " → " ++ opp.sellDex

/-- Record written on the simulation success path (status success, output
amount = principal times 1.01). -/
def simRecord (c : Collab) (opp : ArbitrageOpportunity) : TxRecord :=
  { txHash := c.mockTxHash, tokenIn := opp.tokenIn.symbol, tokenOut := opp.tokenOut.symbol,
    amountIn := opp.flashLoanAmount,
    amountOut := opp.flashLoanAmount * (101 / 100),
    profitUsd := opp.estimatedProfitUsd, gasCostUsd := opp.estimatedGasCostUsd,
    netProfitUsd := opp.estimatedProfitUsd - opp.estimatedGasCostUsd,
    status := "success", dexPath := dexPathOf opp }

/-- Record written on the real-trading path (status pending, output amount =
the buy quote's output amount). -/
def pendingRecord (c : Collab) (opp : ArbitrageOpportunity) (buySwap : SwapQuote) : TxRecord :=
  { txHash := c.realTxHash, tokenIn := opp.tokenIn.symbol, tokenOut := opp.tokenOut.symbol,
    amountIn := opp.flashLoanAmount,
    amountOut := buySwap.toAmount,
    profitUsd := opp.estimatedProfitUsd, gasCostUsd := opp.estimatedGasCostUsd,
    netProfitUsd := opp.estimatedProfitUsd - opp.estimatedGasCostUsd,
    status := "pending", dexPath := dexPathOf opp }

/-- Record written on the failure path (status failed, zeroed financials). -/
def failedRecord (opp : ArbitrageOpportunity) : TxRecord :=
  { txHash := "0x0", tokenIn := opp.tokenIn.symbol, tokenOut := opp.tokenOut.symbol,
    amountIn := opp.flashLoanAmount, amountOut := 0,
    profitUsd := 0, gasCostUsd := 0, netProfitUsd := 0,
    status := "failed", dexPath := dexPathOf opp }

/-- Body of the inner try of the MATIC balance step: derive the wallet,
query the native balance, log the check, and throw when below the fixed
0.1 minimum. -/
def balanceInner (c : Collab) (pk : String) (chainId : Nat) (s : PState) :
    Except (PErr × PState) PState :=
  match c.deriveWallet pk with
  | .error e => .error (.collab e, s)
  | .ok walletAddress =>
    let s := { s with eff := { s.eff with balanceCalls := s.eff.balanceCalls ++ [(walletAddress, chainId)] } }
    match c.getNativeBalance walletAddress chainId with
    | .error e => .error (.collab e, s)
    | .ok currentMatic =>
      pbind (pLog c s "info" "3_balance_check") fun s =>
      if currentMatic < (1 : ℚ) / 10 then
        .error (.insufficientMatic currentMatic, s)
      else
        .ok s

/-- The balance step with its own try/catch: any error of the inner body,
including the insufficient-balance throw, is demoted to a warning log and
the pipeline continues. -/
def balanceTry (c : Collab) (pk : String) (chainId : Nat) (s : PState) :
    Except (PErr × PState) PState :=
  match balanceInner c pk chainId s with
  | .ok s' => .ok s'
  | .error (_, s') => pLog c s' "warning" "3_balance_check_failed"

/-- Simulation branch: two logs, the mock success record, threshold-gated
telegram notification, successful result. -/
def simBranch (c : Collab) (opp : ArbitrageOpportunity) (config : BotConfig) (s : PState) :
    Except (PErr × PState) (TradeExecutionResult × PState) :=
  pbind (pLog c s "info" "5_mock_transaction") fun s =>
  pbind (pLog c s "success" "7_completed") fun s =>
  pbind (pRecord c s (simRecord c opp)) fun s =>
  let profitThreshold := config.telegramProfitThresholdUsd.getD 10
  pbind
    (if opp.estimatedProfitUsd ≥ profitThreshold then pNotify c s "trade_success"
     else .ok s) fun s =>
  .ok ({ success := true, txHash := some c.mockTxHash,
         profitUsd := some opp.estimatedProfitUsd,
         gasCostUsd := some opp.estimatedGasCostUsd,
         message := .simSuccess opp.estimatedProfitUsd, error := none }, s)

/-- Real-trading branch: warning log, two back-to-back swap builds (the sell
leg is requested with the buy quote's output amount), the pending record,
success log, unconditional telegram notification, successful result. -/
def realBranch (c : Collab) (opp : ArbitrageOpportunity) (config : BotConfig) (s : PState) :
    Except (PErr × PState) (TradeExecutionResult × PState) :=
  pbind (pLog c s "warning" "5_real_execution") fun s =>
  let loanAmount := opp.flashLoanAmount * (10 : ℚ) ^ opp.tokenIn.decimals
  let req0 : SwapRequest :=
    { src := opp.tokenIn.address, dst := opp.tokenOut.address,
      amount := loanAmount, sender := config.privateKey }
  let s := { s with eff := { s.eff with swapCalls := s.eff.swapCalls ++ [req0] } }
  match c.buildSwap 0 req0 with
  | .error e => .error (.collab e, s)
  | .ok buySwap =>
    let req1 : SwapRequest :=
      { src := opp.tokenOut.address, dst := opp.tokenIn.address,
        amount := buySwap.toAmount, sender := config.privateKey }
    let s := { s with eff := { s.eff with swapCalls := s.eff.swapCalls ++ [req1] } }
    match c.buildSwap 1 req1 with
    | .error e => .error (.collab e, s)
    | .ok _sellSwap =>
      pbind (pLog c s "info" "6_swap_preparation") fun s =>
      pbind (pRecord c s (pendingRecord c opp buySwap)) fun s =>
      pbind (pLog c s "success" "7_transaction_sent") fun s =>
      pbind (pNotify c s "trade_pending") fun s =>
      .ok ({ success := true, txHash := some c.realTxHash,
             profitUsd := some opp.estimatedProfitUsd,
             gasCostUsd := some opp.estimatedGasCostUsd,
             message := .realSuccess c.realTxHash, error := none }, s)

/-- Body of the outer try of executeArbitrageTrade, steps 1 to 7 in source
order: start log, config load, real-trading gate, credential resolution and
gate, best-effort balance step (real mode only), gas-price query and ceiling
check, then the mode branch. -/
def tradeBody (c : Collab) (opp : ArbitrageOpportunity) (isSimulation : Bool) (s0 : PState) :
    Except (PErr × PState) (TradeExecutionResult × PState) :=
  pbind (pLog c s0 "info" "1_validation") fun s =>
  match c.getBotConfig with
  | .error e => .error (.collab e, s)
  | .ok none => .error (.configNotFound, s)
  | .ok (some config) =>
    if !isSimulation && !config.enableRealTrading then
      .error (.realTradingDisabled, s)
    else
      let privateKey := jsStrOr config.privateKey c.envPrivateKey
      pbind
        (if !isSimulation && !(jsTruthyStr privateKey) then
          pbind (pLog c s "error" "2_validation_failed") fun s1 =>
            .error (.privateKeyMissing, s1)
        else .ok s) fun s =>
      pbind (pLog c s "info" "2_key_validation") fun s =>
      pbind
        (if !isSimulation && jsTruthyStr privateKey then
          let chainId := if config.networkMode = "mainnet" then 137 else 80002
          balanceTry c (privateKey.getD "") chainId s
        else .ok s) fun s =>
      let s := { s with eff := { s.eff with gasCalls := s.eff.gasCalls + 1 } }
      match c.getGasPrice with
      | .error e => .error (.collab e, s)
      | .ok currentGasGwei =>
        pbind (pLog c s "info" "4_gas_check") fun s =>
        pbind
          (if currentGasGwei > jsNumOr config.maxGasPriceGwei 60 then
            pbind (pLog c s "error" "4_gas_too_high") fun s1 =>
              .error (.gasTooHigh currentGasGwei config.maxGasPriceGwei, s1)
          else .ok s) fun s =>
        if isSimulation then
          simBranch c opp config s
        else
          realBranch c opp config s

/-- The catch block of executeArbitrageTrade: its own error-log and
failed-record writes are awaited unguarded, so an error of either escapes
the function. -/
def catchBlock (c : Collab) (opp : ArbitrageOpportunity) (e : PErr) (s : PState) :
    Except (PErr × PState) (TradeExecutionResult × PState) :=
  pbind (pLog c s "error" "catch_error") fun s =>
  pbind (pRecord c s (failedRecord opp)) fun s =>
  .ok ({ success := false, txHash := none, profitUsd := none, gasCostUsd := none,
         message := .failed e, error := some e }, s)

/-- Outcome of one invocation: a returned result, or an exception escaping
the async function, each with the effects performed up to that point. -/
inductive Outcome where
  | ret (r : TradeExecutionResult) (eff : Effects)
  | thrown (e : PErr) (eff : Effects)
deriving DecidableEq, Repr

/-- TradeExecutor.executeArbitrageTrade: run the guarded body; on a thrown
error run the catch block, whose own collaborator failures escape. -/
def executeArbitrageTrade (c : Collab) (_userId : String) (opp : ArbitrageOpportunity)
    (isSimulation : Bool) : Outcome :=
  match tradeBody c opp isSimulation initPState with
  | .ok (r, s) => .ret r s.eff
  | .error (e, s) =>
    match catchBlock c opp e s with
    | .ok (r, s') => .ret r s'.eff
    | .error (e', s') => .thrown e' s'.eff

def Outcome.isThrown : Outcome → Bool
  | .thrown _ _ => true
  | .ret _ _ => false

def Outcome.effOf : Outcome → Effects
  | .ret _ eff => eff
  | .thrown _ eff => eff

def Outcome.retSuccess : Outcome → Option Bool
  | .ret r _ => some r.success
  | .thrown _ _ => none

def Outcome.errorOf : Outcome → Option PErr
  | .ret r _ => r.error
  | .thrown e _ => some e

/-- TradeExecutor.validateOpportunity: config load (an error yields false),
fixed 30000 ms staleness window, then the configured minimum net-profit
percent with default 0.15. -/
def validateOpportunity (getBotConfig : Except Err (Option BotConfig)) (now : Int)
    (opp : ArbitrageOpportunity) : Bool :=
  match getBotConfig with
  | .error _ => false
  | .ok oc =>
    let ageMs := now - opp.timestamp
    if ageMs > 30000 then false
    else if opp.netProfitPercent < (oc.bind fun cf => cf.minNetProfitPercent).getD (3 / 20) then
      false
    else true

namespace DexAggregator

/-- Token addresses of the TOKENS table of src/server/dexAggregator.ts. -/
def MATIC : String := "0xEeeeeEeeeEeEeeEeEeEeeEEEeeeeEeeeeeeeEEeE"

def WMATIC : String := "0x0d500B1d8E8eF31E21C99d1Db9A6444d3ADf1270"

def USDC : String := "0x2791Bca1f2de4661ED88A30C99A7a9449Aa84174"

def USDT : String := "0xc2132D05D31c914a87C6611C10748AEb04B58e8F"

def WETH : String := "0x7ceB23fD6bC0adD59E62ac25578270cFf1b9f619"

def DAI : String := "0x8f3Cf7ad23Cd3CaDbD9735AFf958023239c6A063"

def WBTC : String := "0x1BFD67037B42Cf73acF2047067bd4F2C47D9BfD6"

/-- JavaScript Number.prototype.toFixed idealised over the rationals:
round to the given number of decimal digits. -/
def toFixed (digits : Nat) (x : ℚ) : ℚ :=
  (round (x * 10 ^ digits) : ℚ) / 10 ^ digits

/-- Demo-mode branch of DexAggregator.getQuote: the hardcoded pair table,
with the toFixed roundings of the source; unrecognized pairs copy the
input amount unchanged (1:1). -/
def getQuoteDemoToAmount (src dst : String) (amount : ℚ) : ℚ :=
  if src = MATIC ∧ dst = USDC then toFixed 6 (amount * (7 / 10))
  else if src = USDC ∧ dst = MATIC then toFixed 6 (amount / (7 / 10))
  else if src = WMATIC ∧ dst = USDC then toFixed 6 (amount * (7 / 10))
  else if src = USDC ∧ dst = WETH then toFixed 8 (amount / 2500)
  else if src = WETH ∧ dst = USDC then toFixed 6 (amount * 2500)
  else amount

/-- Output amount of DexAggregator.getQuote: with an API key the live API
result is used when it succeeds and the demo path is the fallback; without
an API key (the constructor maps an empty key to null) the demo path is
taken directly. -/
def getQuoteToAmount (apiKey : Option String) (apiResult : Except Err ℚ)
    (src dst : String) (amount : ℚ) : ℚ :=
  match apiKey with
  | some k =>
    if k = "" then getQuoteDemoToAmount src dst amount
    else
      match apiResult with
      | .ok a => a
      | .error _ => getQuoteDemoToAmount src dst amount
  | none => getQuoteDemoToAmount src dst amount

end DexAggregator

/-!
Concrete fixtures used by witnesses, counterexamples and code-behavior
theorems.
-/

def tokenMATIC : Token :=
  { symbol := "MATIC", address := DexAggregator.MATIC, decimals := 18 }

def tokenUSDC : Token :=
  { symbol := "USDC", address := DexAggregator.USDC, decimals := 6 }

def oppA : ArbitrageOpportunity :=
  { id := "opp-1", tokenIn := tokenMATIC, tokenOut := tokenUSDC,
    buyDex := "QuickSwap", sellDex := "1inch", flashLoanAmount := 1000,
    estimatedProfitUsd := 25, estimatedGasCostUsd := 2, netProfitPercent := 1/2,
    timestamp := 0 }

def cfgA : BotConfig :=
  { enableRealTrading := true, privateKey := some "0xabc", networkMode := "mainnet",
    maxGasPriceGwei := some 60, minNetProfitPercent := some (3/20),
    telegramProfitThresholdUsd := some 10, oneinchApiKey := none }

/-- Configuration with no private credential. -/
def cfgNoKey : BotConfig := { cfgA with privateKey := none }

/-- Configuration with a configured maximum gas price of 0 Gwei. -/
def cfgZeroGas : BotConfig := { cfgA with maxGasPriceGwei := some 0 }

/-- Collaborator behavior in which every call succeeds. -/
def collabOk : Collab :=
  { getBotConfig := .ok (some cfgA), envPrivateKey := none,
    logOutcome := fun _ => .ok (), deriveWallet := fun _ => .ok "0xWALLET",
    getNativeBalance := fun _ _ => .ok 5, getGasPrice := .ok 30,
    buildSwap := fun _ r => .ok { toAmount := r.amount * (99/100) },
    recordOutcome := fun _ => .ok (), notifyOutcome := fun _ => .ok (),
    mockTxHash := "0xmock", realTxHash := "0xreal" }

/-- Behavior whose config store has no row and whose second audit-log write
(the one of the catch block) throws. -/
def collabLogDown : Collab :=
  { collabOk with getBotConfig := .ok none,
                  logOutcome := fun i => if i == 1 then .error "log store down" else .ok () }

/-- Behavior whose telegram channel throws. -/
def collabTelegramDown : Collab :=
  { collabOk with notifyOutcome := fun _ => .error "telegram down" }

/-- Behavior whose native-balance query reports 0.05 MATIC, below the fixed
0.1 minimum. -/
def collabLowBalance : Collab :=
  { collabOk with getNativeBalance := fun _ _ => .ok (1/20) }

/-- Behavior with the balance below minimum and the gas price above the
ceiling at the same time. -/
def collabLowBalanceHighGas : Collab :=
  { collabOk with getNativeBalance := fun _ _ => .ok (1/20), getGasPrice := .ok 100 }

/-- Behavior with no credential anywhere (config or environment). -/
def collabNoKey : Collab :=
  { collabOk with getBotConfig := .ok (some cfgNoKey) }

/-- Behavior whose configured maximum gas price is 0 Gwei. -/
def collabZeroGas (gas : ℚ) : Collab :=
  { collabOk with getBotConfig := .ok (some cfgZeroGas), getGasPrice := .ok gas }

/-!
Helper lemmas shared by several claim theorems.
-/

theorem pbind_ok {α : Type} {x : Except (PErr × PState) PState}
    {f : PState → Except (PErr × PState) α} {y : α}
    (h : pbind x f = .ok y) : ∃ s, x = .ok s ∧ f s = .ok y := by
  cases x with
  | ok s => exact ⟨s, rfl, h⟩
  | error e => simp [pbind] at h

theorem simBranch_ok_success (c : Collab) (opp : ArbitrageOpportunity) (config : BotConfig)
    (s0 : PState) (r : TradeExecutionResult) (s : PState)
    (h : simBranch c opp config s0 = .ok (r, s)) : r.success = true ∧ r.error = none := by
  unfold simBranch at h
  obtain ⟨s1, h1, h⟩ := pbind_ok h
  obtain ⟨s2, h2, h⟩ := pbind_ok h
  obtain ⟨s3, h3, h⟩ := pbind_ok h
  obtain ⟨s4, h4, h⟩ := pbind_ok h
  simp only [Except.ok.injEq, Prod.mk.injEq] at h
  obtain ⟨hr, hs⟩ := h
  subst hr
  exact ⟨rfl, rfl⟩

theorem realBranch_ok_success (c : Collab) (opp : ArbitrageOpportunity) (config : BotConfig)
    (s0 : PState) (r : TradeExecutionResult) (s : PState)
    (h : realBranch c opp config s0 = .ok (r, s)) : r.success = true ∧ r.error = none := by
  unfold realBranch at h
  obtain ⟨s1, h1, h⟩ := pbind_ok h
  dsimp only [] at h
  split at h
  · simp_all
  · split at h
    · simp_all
    · obtain ⟨s2, h2, h⟩ := pbind_ok h
      obtain ⟨s3, h3, h⟩ := pbind_ok h
      obtain ⟨s4, h4, h⟩ := pbind_ok h
      obtain ⟨s5, h5, h⟩ := pbind_ok h
      simp only [Except.ok.injEq, Prod.mk.injEq] at h
      obtain ⟨hr, hs⟩ := h
      subst hr
      exact ⟨rfl, rfl⟩

theorem tradeBody_ok_success (c : Collab) (opp : ArbitrageOpportunity) (sim : Bool)
    (s0 : PState) (r : TradeExecutionResult) (s : PState)
    (h : tradeBody c opp sim s0 = .ok (r, s)) : r.success = true ∧ r.error = none := by
  unfold tradeBody at h
  obtain ⟨s1, h1, h⟩ := pbind_ok h
  dsimp only [] at h
  split at h
  · simp_all
  · simp_all
  · split at h
    · simp_all
    · obtain ⟨s2, h2, h⟩ := pbind_ok h
      obtain ⟨s3, h3, h⟩ := pbind_ok h
      obtain ⟨s4, h4, h⟩ := pbind_ok h
      split at h
      · simp_all
      · obtain ⟨s5, h5, h⟩ := pbind_ok h
        obtain ⟨s6, h6, h⟩ := pbind_ok h
        split at h
        · exact simBranch_ok_success _ _ _ _ _ _ h
        · exact realBranch_ok_success _ _ _ _ _ _ h

theorem catchBlock_eq (c : Collab) (opp : ArbitrageOpportunity) (e : PErr) (s : PState)
    (hlog : c.logOutcome s.logIdx = .ok ()) (hrec : c.recordOutcome s.recIdx = .ok ()) :
    catchBlock c opp e s = .ok
      ({ success := false, txHash := none, profitUsd := none, gasCostUsd := none,
         message := .failed e, error := some e },
       { eff := { s.eff with
                    logs := s.eff.logs ++ [⟨"error", "catch_error"⟩],
                    records := s.eff.records ++ [failedRecord opp] },
         logIdx := s.logIdx + 1, recIdx := s.recIdx + 1, notIdx := s.notIdx }) := by
  simp [catchBlock, pbind, pLog, pRecord, hlog, hrec]

/-!
Claim theorems.
-/

/-- C1 counterexample: the claim quantifies over every behavior of the
collaborators, including the log store.  When the configuration row is
missing and the audit-log write of the catch block itself throws, the
rejection escapes executeArbitrageTrade: the call throws outward instead
of returning a TradeExecutionResult. -/
theorem C1_counterexample :
    (executeArbitrageTrade collabLogDown "user-1" oppA true).isThrown = true := by
  decide

/-- C1 amended: provided the catch block's own two writes succeed (the
audit-log write at the error state's log index and the record write that
follows it, both awaited unguarded there), executeArbitrageTrade never
throws outward, and a returned failure carries a populated error.  Every
other collaborator call, the in-try log and record writes included, may
fail arbitrarily: those failures are caught by the recovery boundary and
surface as the returned failed result. -/
theorem C1_never_throws_amended (c : Collab) (u : String) (opp : ArbitrageOpportunity)
    (sim : Bool)
    (hcatch : ∀ e s, tradeBody c opp sim initPState = .error (e, s) →
      c.logOutcome s.logIdx = .ok () ∧ c.recordOutcome s.recIdx = .ok ()) :
    ∃ r eff, executeArbitrageTrade c u opp sim = .ret r eff ∧
      (r.success = false → ∃ e, r.error = some e) := by
  unfold executeArbitrageTrade
  cases h : tradeBody c opp sim initPState with
  | ok rs =>
      obtain ⟨r, s⟩ := rs
      have hb := tradeBody_ok_success c opp sim initPState r s h
      exact ⟨r, s.eff, rfl, by simp [hb.1]⟩
  | error es =>
      obtain ⟨e, s⟩ := es
      obtain ⟨hl, hr⟩ := hcatch e s h
      dsimp only []
      rw [catchBlock_eq c opp e s hl hr]
      exact ⟨_, _, rfl, fun _ => ⟨e, rfl⟩⟩

/-- C1 amended witness at a concrete behavior whose in-try telegram write
throws: the failure is caught and returned as a failed result with a
populated error. -/
theorem C1_amended_witness :
    ∃ r eff, executeArbitrageTrade collabTelegramDown "user-1" oppA true = .ret r eff ∧
      (r.success = false → ∃ e, r.error = some e) :=
  C1_never_throws_amended collabTelegramDown "user-1" oppA true
    (fun _ _ _ => ⟨rfl, rfl⟩)

/-- C3 code behavior: in real mode with a queried native balance of 0.05,
below the fixed 0.1 minimum, the pipeline does not abort: the thrown
insufficient-balance error is caught by the balance step's own try/catch,
only a warning is logged, and the run continues to a successful result
with a pending record. -/
theorem C3_low_balance_not_fatal :
    (executeArbitrageTrade collabLowBalance "user-1" oppA false).retSuccess = some true ∧
    ((executeArbitrageTrade collabLowBalance "user-1" oppA false).effOf.records.map
      (fun r => r.status)) = ["pending"] ∧
    (⟨"warning", "3_balance_check_failed"⟩ : LogEntry) ∈
      (executeArbitrageTrade collabLowBalance "user-1" oppA false).effOf.logs := by
  refine ⟨by decide, by decide, by decide⟩

/-- C4 counterexample: when the telegram channel throws after the simulation
success record was written, the catch block writes a second, failed record:
two records in one call, the first of status success while the returned
success flag is false. -/
theorem C4_counterexample :
    ((executeArbitrageTrade collabTelegramDown "user-1" oppA true).effOf.records.map
      (fun r => r.status)) = ["success", "failed"] ∧
    (executeArbitrageTrade collabTelegramDown "user-1" oppA true).retSuccess = some false := by
  refine ⟨by decide, by decide⟩

/-- C5 counterexample: real mode with balance 0.05 (below minimum) and gas
price 100 Gwei (above the 60 ceiling).  The claim says the insufficient-
balance error takes precedence; the code returns the gas-too-high error,
because the balance failure was demoted to a warning. -/
theorem C5_counterexample :
    (executeArbitrageTrade collabLowBalanceHighGas "user-1" oppA false).errorOf
      = some (PErr.gasTooHigh 100 (some 60)) := by
  decide

/-- C9 counterexample: in demo mode the MATIC to USDC conversion applies
toFixed 6 after the 0.7 factor, so for the input amount 1/10000000 the
output is 0, not the input times 0.7. -/
theorem C9_counterexample :
    DexAggregator.getQuoteToAmount none (.error "") DexAggregator.MATIC DexAggregator.USDC
      (1/10000000) ≠ (1/10000000) * (7/10) := by
  decide

/-- C6: in real mode, with the configuration present and real trading
enabled but no truthy credential in the configuration or the environment,
the call fails with the credential-missing error, and no native-balance
query and no gas-price query is made. -/
theorem C6_credential_missing (c : Collab) (u : String) (opp : ArbitrageOpportunity)
    (cfg : BotConfig)
    (hcfg : c.getBotConfig = .ok (some cfg))
    (hrt : cfg.enableRealTrading = true)
    (hpk : jsTruthyStr (jsStrOr cfg.privateKey c.envPrivateKey) = false)
    (hlog : ∀ i, c.logOutcome i = .ok ())
    (hrec : ∀ i, c.recordOutcome i = .ok ()) :
    executeArbitrageTrade c u opp false = .ret
      { success := false, txHash := none, profitUsd := none, gasCostUsd := none,
        message := .failed .privateKeyMissing, error := some .privateKeyMissing }
      { logs := [⟨"info", "1_validation"⟩, ⟨"error", "2_validation_failed"⟩,
                 ⟨"error", "catch_error"⟩],
        records := [failedRecord opp], notifications := [], swapCalls := [],
        balanceCalls := [], gasCalls := 0 } := by
  simp [executeArbitrageTrade, tradeBody, catchBlock, pbind, pLog, pRecord,
        initPState, Effects.empty, hcfg, hrt, hpk, hlog, hrec]

/-- C6 witness: concrete behavior with no credential anywhere. -/
theorem C6_witness :
    executeArbitrageTrade collabNoKey "user-1" oppA false = .ret
      { success := false, txHash := none, profitUsd := none, gasCostUsd := none,
        message := .failed .privateKeyMissing, error := some .privateKeyMissing }
      { logs := [⟨"info", "1_validation"⟩, ⟨"error", "2_validation_failed"⟩,
                 ⟨"error", "catch_error"⟩],
        records := [failedRecord oppA], notifications := [], swapCalls := [],
        balanceCalls := [], gasCalls := 0 } :=
  C6_credential_missing collabNoKey "user-1" oppA cfgNoKey rfl rfl rfl
    (fun _ => rfl) (fun _ => rfl)

/-- C7: in simulation mode with no credential configured or in the
environment, the run reaches the successful result: a success record, the
notification exactly when the estimated profit meets the configured
threshold, and no balance query (the credential and gas-reserve checks are
skipped in simulation). -/
theorem C7_simulation_no_credential (c : Collab) (u : String) (opp : ArbitrageOpportunity)
    (cfg : BotConfig) (g : ℚ)
    (hcfg : c.getBotConfig = .ok (some cfg))
    (hnokey : cfg.privateKey = none)
    (henv : c.envPrivateKey = none)
    (hlog : ∀ i, c.logOutcome i = .ok ())
    (hrec : ∀ i, c.recordOutcome i = .ok ())
    (hnot : ∀ i, c.notifyOutcome i = .ok ())
    (hgas : c.getGasPrice = .ok g)
    (hgok : ¬ g > jsNumOr cfg.maxGasPriceGwei 60) :
    executeArbitrageTrade c u opp true = .ret
      { success := true, txHash := some c.mockTxHash, profitUsd := some opp.estimatedProfitUsd,
        gasCostUsd := some opp.estimatedGasCostUsd,
        message := .simSuccess opp.estimatedProfitUsd, error := none }
      { logs := [⟨"info", "1_validation"⟩, ⟨"info", "2_key_validation"⟩,
                 ⟨"info", "4_gas_check"⟩, ⟨"info", "5_mock_transaction"⟩,
                 ⟨"success", "7_completed"⟩],
        records := [simRecord c opp],
        notifications := if opp.estimatedProfitUsd ≥ cfg.telegramProfitThresholdUsd.getD 10
                         then ["trade_success"] else [],
        swapCalls := [], balanceCalls := [], gasCalls := 1 } := by
  by_cases hth : opp.estimatedProfitUsd ≥ cfg.telegramProfitThresholdUsd.getD 10 <;>
    simp [executeArbitrageTrade, tradeBody, simBranch, pbind, pLog, pRecord, pNotify,
          initPState, Effects.empty, hcfg, hnokey, henv, hlog, hrec, hnot, hgas, hgok, hth]

/-- C7 witness: concrete simulation run with no credential, profit 25 and
threshold 10 (notification sent). -/
theorem C7_witness :
    executeArbitrageTrade { collabNoKey with envPrivateKey := none } "user-1" oppA true = .ret
      { success := true, txHash := some "0xmock", profitUsd := some 25,
        gasCostUsd := some 2, message := .simSuccess 25, error := none }
      { logs := [⟨"info", "1_validation"⟩, ⟨"info", "2_key_validation"⟩,
                 ⟨"info", "4_gas_check"⟩, ⟨"info", "5_mock_transaction"⟩,
                 ⟨"success", "7_completed"⟩],
        records := [simRecord { collabNoKey with envPrivateKey := none } oppA],
        notifications := if (25:ℚ) ≥ (10:ℚ) then ["trade_success"] else [],
        swapCalls := [], balanceCalls := [], gasCalls := 1 } := by
  have h := C7_simulation_no_credential { collabNoKey with envPrivateKey := none }
    "user-1" oppA cfgNoKey 30 rfl rfl rfl (fun _ => rfl) (fun _ => rfl) (fun _ => rfl) rfl
    (by decide)
  simpa using h

/-- C10: a configured maximum gas price of 0 Gwei is falsy for the or-else
defaulting, so the ceiling check compares against the default 60: queried
gas at most 60 still succeeds (a zero ceiling cannot reject every trade),
and only gas above 60 fails, with the gas-too-high error. -/
theorem C10_zero_gas_ceiling (c : Collab) (u : String) (opp : ArbitrageOpportunity)
    (cfg : BotConfig) (g : ℚ)
    (hcfg : c.getBotConfig = .ok (some cfg))
    (hzero : cfg.maxGasPriceGwei = some 0)
    (hlog : ∀ i, c.logOutcome i = .ok ())
    (hrec : ∀ i, c.recordOutcome i = .ok ())
    (hnot : ∀ i, c.notifyOutcome i = .ok ())
    (hgas : c.getGasPrice = .ok g) :
    (g ≤ 60 → (executeArbitrageTrade c u opp true).retSuccess = some true ∧
      (executeArbitrageTrade c u opp true).errorOf = none) ∧
    (60 < g → (executeArbitrageTrade c u opp true).retSuccess = some false ∧
      (executeArbitrageTrade c u opp true).errorOf = some (.gasTooHigh g (some 0))) := by
  constructor
  · intro hle
    have hgok : ¬ (60:ℚ) < g := not_lt.mpr hle
    by_cases hth : opp.estimatedProfitUsd ≥ cfg.telegramProfitThresholdUsd.getD 10 <;>
      simp [executeArbitrageTrade, tradeBody, simBranch, pbind, pLog, pRecord, pNotify,
            initPState, Effects.empty, Outcome.retSuccess, Outcome.errorOf, jsNumOr,
            hcfg, hzero, hlog, hrec, hnot, hgas, hgok, hth]
  · intro hlt
    simp [executeArbitrageTrade, tradeBody, catchBlock, pbind, pLog, pRecord,
          initPState, Effects.empty, Outcome.retSuccess, Outcome.errorOf, jsNumOr,
          hcfg, hzero, hlog, hrec, hgas, hlt]

/-- C10 witness: with a configured 0 Gwei ceiling, gas 30 succeeds and gas
80 fails with the gas-too-high error. -/
theorem C10_witness :
    ((executeArbitrageTrade (collabZeroGas 30) "user-1" oppA true).retSuccess = some true ∧
      (executeArbitrageTrade (collabZeroGas 30) "user-1" oppA true).errorOf = none) ∧
    ((executeArbitrageTrade (collabZeroGas 80) "user-1" oppA true).retSuccess = some false ∧
      (executeArbitrageTrade (collabZeroGas 80) "user-1" oppA true).errorOf
        = some (.gasTooHigh 80 (some 0))) := by
  constructor
  · exact (C10_zero_gas_ceiling (collabZeroGas 30) "user-1" oppA cfgZeroGas 30 rfl rfl
      (fun _ => rfl) (fun _ => rfl) (fun _ => rfl) rfl).1 (by norm_num)
  · exact (C10_zero_gas_ceiling (collabZeroGas 80) "user-1" oppA cfgZeroGas 80 rfl rfl
      (fun _ => rfl) (fun _ => rfl) (fun _ => rfl) rfl).2 (by norm_num)

/-- C2: in real mode, once the configuration, trading-enabled, credential,
balance and gas-price checks all pass, the pipeline builds two swap legs
back-to-back (the sell request's amount is the buy quote's output amount),
persists exactly one pending record whose output amount is the buy quote's
output amount, sends one notification, and returns success with the
synthesized transaction identifier. -/
theorem C2_real_success_path (c : Collab) (u : String) (opp : ArbitrageOpportunity)
    (cfg : BotConfig) (pk addr : String) (bal g : ℚ) (q0 q1 : SwapQuote)
    (hcfg : c.getBotConfig = .ok (some cfg))
    (hrt : cfg.enableRealTrading = true)
    (hpk : jsStrOr cfg.privateKey c.envPrivateKey = some pk)
    (hpkne : pk ≠ "")
    (hlog : ∀ i, c.logOutcome i = .ok ())
    (hrec : ∀ i, c.recordOutcome i = .ok ())
    (hnot : ∀ i, c.notifyOutcome i = .ok ())
    (hdw : c.deriveWallet pk = .ok addr)
    (hbal : c.getNativeBalance addr (if cfg.networkMode = "mainnet" then 137 else 80002)
              = .ok bal)
    (hbmin : ¬ bal < (1:ℚ)/10)
    (hgas : c.getGasPrice = .ok g)
    (hgok : ¬ g > jsNumOr cfg.maxGasPriceGwei 60)
    (hq0 : c.buildSwap 0 { src := opp.tokenIn.address, dst := opp.tokenOut.address,
                           amount := opp.flashLoanAmount * (10 : ℚ) ^ opp.tokenIn.decimals,
                           sender := cfg.privateKey } = .ok q0)
    (hq1 : c.buildSwap 1 { src := opp.tokenOut.address, dst := opp.tokenIn.address,
                           amount := q0.toAmount, sender := cfg.privateKey } = .ok q1) :
    executeArbitrageTrade c u opp false = .ret
      { success := true, txHash := some c.realTxHash, profitUsd := some opp.estimatedProfitUsd,
        gasCostUsd := some opp.estimatedGasCostUsd,
        message := .realSuccess c.realTxHash, error := none }
      { logs := [⟨"info", "1_validation"⟩, ⟨"info", "2_key_validation"⟩,
                 ⟨"info", "3_balance_check"⟩, ⟨"info", "4_gas_check"⟩,
                 ⟨"warning", "5_real_execution"⟩, ⟨"info", "6_swap_preparation"⟩,
                 ⟨"success", "7_transaction_sent"⟩],
        records := [pendingRecord c opp q0],
        notifications := ["trade_pending"],
        swapCalls := [{ src := opp.tokenIn.address, dst := opp.tokenOut.address,
                          amount := opp.flashLoanAmount * (10 : ℚ) ^ opp.tokenIn.decimals,
                          sender := cfg.privateKey },
                      { src := opp.tokenOut.address, dst := opp.tokenIn.address,
                          amount := q0.toAmount, sender := cfg.privateKey }],
        balanceCalls := [(addr, if cfg.networkMode = "mainnet" then 137 else 80002)],
        gasCalls := 1 } := by
  have hbmin10 : ¬ bal < (10:ℚ)⁻¹ := by rwa [← one_div]
  simp [executeArbitrageTrade, tradeBody, realBranch, balanceTry, balanceInner,
        pbind, pLog, pRecord, pNotify, initPState, Effects.empty, jsTruthyStr,
        hcfg, hrt, hpk, hpkne, hlog, hrec, hnot, hdw, hbal, hbmin10, hgas, hgok, hq0, hq1]

/-- C2 witness: concrete real-mode run in which every check passes; the two
swap legs are built back-to-back and one pending record is written. -/
theorem C2_witness :
    executeArbitrageTrade collabOk "user-1" oppA false = .ret
      { success := true, txHash := some collabOk.realTxHash,
        profitUsd := some oppA.estimatedProfitUsd,
        gasCostUsd := some oppA.estimatedGasCostUsd,
        message := .realSuccess collabOk.realTxHash, error := none }
      { logs := [⟨"info", "1_validation"⟩, ⟨"info", "2_key_validation"⟩,
                 ⟨"info", "3_balance_check"⟩, ⟨"info", "4_gas_check"⟩,
                 ⟨"warning", "5_real_execution"⟩, ⟨"info", "6_swap_preparation"⟩,
                 ⟨"success", "7_transaction_sent"⟩],
        records := [pendingRecord collabOk oppA
          ⟨oppA.flashLoanAmount * (10 : ℚ) ^ oppA.tokenIn.decimals * (99/100)⟩],
        notifications := ["trade_pending"],
        swapCalls := [{ src := oppA.tokenIn.address, dst := oppA.tokenOut.address,
                          amount := oppA.flashLoanAmount * (10 : ℚ) ^ oppA.tokenIn.decimals,
                          sender := cfgA.privateKey },
                      { src := oppA.tokenOut.address, dst := oppA.tokenIn.address,
                          amount := oppA.flashLoanAmount * (10 : ℚ) ^ oppA.tokenIn.decimals * (99/100),
                          sender := cfgA.privateKey }],
        balanceCalls := [("0xWALLET", if cfgA.networkMode = "mainnet" then 137 else 80002)],
        gasCalls := 1 } :=
  C2_real_success_path collabOk "user-1" oppA cfgA "0xabc" "0xWALLET" 5 30
    ⟨oppA.flashLoanAmount * (10 : ℚ) ^ oppA.tokenIn.decimals * (99/100)⟩
    ⟨oppA.flashLoanAmount * (10 : ℚ) ^ oppA.tokenIn.decimals * (99/100) * (99/100)⟩
    rfl rfl rfl (by decide) (fun _ => rfl) (fun _ => rfl) (fun _ => rfl) rfl rfl
    (by norm_num) rfl (by decide) rfl rfl

/-- C5 amended: in both modes, once the run reaches the gas-price check
(config present; in real mode trading enabled and a credential resolved),
a queried gas price above the configured ceiling (default 60 when the
configured value is unset) fails the call with the gas-too-high error and
one failed record, whatever the balance oracles answer: when the balance
is also below minimum, the gas error is the one returned, because the
insufficient-balance error is demoted to a warning by the balance step's
own catch. -/
theorem C5_gas_ceiling_amended (c : Collab) (u : String) (opp : ArbitrageOpportunity)
    (cfg : BotConfig) (pk : String) (sim : Bool) (g : ℚ)
    (hcfg : c.getBotConfig = .ok (some cfg))
    (hmode : sim = true ∨
      (sim = false ∧ cfg.enableRealTrading = true ∧
        jsStrOr cfg.privateKey c.envPrivateKey = some pk ∧ pk ≠ ""))
    (hlog : ∀ i, c.logOutcome i = .ok ())
    (hrec : ∀ i, c.recordOutcome i = .ok ())
    (hgas : c.getGasPrice = .ok g)
    (hhigh : g > jsNumOr cfg.maxGasPriceGwei 60) :
    (executeArbitrageTrade c u opp sim).retSuccess = some false ∧
    (executeArbitrageTrade c u opp sim).errorOf
      = some (.gasTooHigh g cfg.maxGasPriceGwei) ∧
    (executeArbitrageTrade c u opp sim).effOf.records = [failedRecord opp] ∧
    (executeArbitrageTrade c u opp sim).effOf.notifications = [] := by
  rcases hmode with hsim | ⟨hsim, hrt, hpk, hpkne⟩
  · subst hsim
    simp [executeArbitrageTrade, tradeBody, catchBlock, pbind, pLog, pRecord,
          initPState, Effects.empty, Outcome.retSuccess, Outcome.errorOf, Outcome.effOf,
          hcfg, hlog, hrec, hgas, hhigh]
  · subst hsim
    cases hdw : c.deriveWallet pk with
    | error e =>
        simp [executeArbitrageTrade, tradeBody, catchBlock, balanceTry, balanceInner,
              pbind, pLog, pRecord, initPState, Effects.empty, Outcome.retSuccess,
              Outcome.errorOf, Outcome.effOf, jsTruthyStr,
              hcfg, hrt, hpk, hpkne, hlog, hrec, hdw, hgas, hhigh]
    | ok addr =>
        cases hbal : c.getNativeBalance addr
            (if cfg.networkMode = "mainnet" then 137 else 80002) with
        | error e =>
            simp [executeArbitrageTrade, tradeBody, catchBlock, balanceTry, balanceInner,
                  pbind, pLog, pRecord, initPState, Effects.empty, Outcome.retSuccess,
                  Outcome.errorOf, Outcome.effOf, jsTruthyStr,
                  hcfg, hrt, hpk, hpkne, hlog, hrec, hdw, hbal, hgas, hhigh]
        | ok bal =>
            by_cases hb : bal < (10:ℚ)⁻¹ <;>
              simp [executeArbitrageTrade, tradeBody, catchBlock, balanceTry, balanceInner,
                    pbind, pLog, pRecord, initPState, Effects.empty, Outcome.retSuccess,
                    Outcome.errorOf, Outcome.effOf, jsTruthyStr,
                    hcfg, hrt, hpk, hpkne, hlog, hrec, hdw, hbal, hb, hgas, hhigh]

/-- C5 amended witness: the concrete both-violated run (balance 0.05, gas
price 100 over the configured maximum 60) fails with the gas error. -/
theorem C5_amended_witness :
    (executeArbitrageTrade collabLowBalanceHighGas "user-1" oppA false).retSuccess
        = some false ∧
    (executeArbitrageTrade collabLowBalanceHighGas "user-1" oppA false).errorOf
        = some (.gasTooHigh 100 (some 60)) ∧
    (executeArbitrageTrade collabLowBalanceHighGas "user-1" oppA false).effOf.records
        = [failedRecord oppA] ∧
    (executeArbitrageTrade collabLowBalanceHighGas "user-1" oppA false).effOf.notifications
        = [] :=
  C5_gas_ceiling_amended collabLowBalanceHighGas "user-1" oppA cfgA "0xabc" false 100
    rfl (Or.inr ⟨rfl, rfl, rfl, by decide⟩) (fun _ => rfl) (fun _ => rfl) rfl (by decide)

/-- C8: validateOpportunity is false for any opportunity older than
30000 ms regardless of profit (and regardless of the config store's
behavior), false when the config load itself throws, false when fresh but
below the configured minimum net-profit percent (default 0.15), and true
when fresh and at or above the minimum; the function is total, so it never
throws. -/
theorem C8_validateOpportunity (gb : Except Err (Option BotConfig)) (now : Int)
    (opp : ArbitrageOpportunity) :
    (now - opp.timestamp > 30000 → validateOpportunity gb now opp = false) ∧
    (∀ e, gb = .error e → validateOpportunity gb now opp = false) ∧
    (∀ oc, gb = .ok oc → ¬ now - opp.timestamp > 30000 →
      opp.netProfitPercent < (oc.bind fun cf => cf.minNetProfitPercent).getD (3/20) →
      validateOpportunity gb now opp = false) ∧
    (∀ oc, gb = .ok oc → ¬ now - opp.timestamp > 30000 →
      ¬ opp.netProfitPercent < (oc.bind fun cf => cf.minNetProfitPercent).getD (3/20) →
      validateOpportunity gb now opp = true) := by
  refine ⟨?_, ?_, ?_, ?_⟩
  · intro hage
    cases gb with
    | error e => simp [validateOpportunity]
    | ok oc => simp [validateOpportunity, hage]
  · intro e he
    subst he
    simp [validateOpportunity]
  · intro oc hoc hage hlow
    subst hoc
    simp [validateOpportunity, hage, hlow]
  · intro oc hoc hage hhi
    subst hoc
    simp [validateOpportunity, hage, hhi]

/-- C8 witness: a stale but very profitable opportunity is rejected; a
fresh one below the 0.15 default is rejected; a fresh one above the
configured minimum is accepted; a throwing config store yields false. -/
theorem C8_witness :
    validateOpportunity (.ok (some cfgA)) 40000 oppA = false ∧
    validateOpportunity (.ok none) 1000 { oppA with netProfitPercent := 1/10 } = false ∧
    validateOpportunity (.ok (some cfgA)) 1000 oppA = true ∧
    validateOpportunity (.error "config store down") 0 oppA = false := by
  refine ⟨?_, ?_, ?_, ?_⟩
  · exact (C8_validateOpportunity (.ok (some cfgA)) 40000 oppA).1 (by decide)
  · exact (C8_validateOpportunity (.ok none) 1000 { oppA with netProfitPercent := 1/10 }).2.2.1
      none rfl (by decide) (by decide)
  · exact (C8_validateOpportunity (.ok (some cfgA)) 1000 oppA).2.2.2
      (some cfgA) rfl (by decide) (by decide)
  · exact (C8_validateOpportunity (.error "config store down") 0 oppA).2.1
      "config store down" rfl

/-- C9 amended: with no API key the demo quote is deterministic; for the
MATIC to USDC pair the output is the input times 0.7 rounded to 6 decimal
places (toFixed 6, so it equals input times 0.7 only when that product
needs at most 6 decimals), and for a pair matching none of the table's
five entries the output equals the input exactly (1:1). -/
theorem C9_demo_quote_amended (api : Except Err ℚ) (src dst : String) (amount : ℚ) :
    (DexAggregator.getQuoteToAmount none api DexAggregator.MATIC DexAggregator.USDC amount
      = DexAggregator.toFixed 6 (amount * (7/10))) ∧
    (¬(src = DexAggregator.MATIC ∧ dst = DexAggregator.USDC) →
     ¬(src = DexAggregator.USDC ∧ dst = DexAggregator.MATIC) →
     ¬(src = DexAggregator.WMATIC ∧ dst = DexAggregator.USDC) →
     ¬(src = DexAggregator.USDC ∧ dst = DexAggregator.WETH) →
     ¬(src = DexAggregator.WETH ∧ dst = DexAggregator.USDC) →
     DexAggregator.getQuoteToAmount none api src dst amount = amount) := by
  constructor
  · simp [DexAggregator.getQuoteToAmount, DexAggregator.getQuoteDemoToAmount]
  · intro h1 h2 h3 h4 h5
    simp [DexAggregator.getQuoteToAmount, DexAggregator.getQuoteDemoToAmount,
          h1, h2, h3, h4, h5]

/-- C9 amended witness: MATIC to USDC at amount 3 yields 2.1, and an
unrecognized pair copies the amount. -/
theorem C9_witness :
    DexAggregator.getQuoteToAmount none (.error "") DexAggregator.MATIC DexAggregator.USDC 3
      = DexAggregator.toFixed 6 (3 * (7/10)) ∧
    DexAggregator.getQuoteToAmount none (.error "") "0xAAA" "0xBBB" 42 = 42 := by
  constructor
  · exact (C9_demo_quote_amended (.error "") "0xAAA" "0xBBB" 3).1
  · exact (C9_demo_quote_amended (.error "") "0xAAA" "0xBBB" 42).2
      (by decide) (by decide) (by decide) (by decide) (by decide)

set_option maxHeartbeats 1000000

theorem pLog_ok (c : Collab) (hlog : ∀ i, c.logOutcome i = .ok ())
    (s : PState) (level step : String) :
    pLog c s level step = .ok
      { eff := { s.eff with logs := s.eff.logs ++ [⟨level, step⟩] },
        logIdx := s.logIdx + 1, recIdx := s.recIdx, notIdx := s.notIdx } := by
  simp [pLog, hlog]

theorem pRecord_ok (c : Collab) (hrec : ∀ i, c.recordOutcome i = .ok ())
    (s : PState) (rec : TxRecord) :
    pRecord c s rec = .ok
      { eff := { s.eff with records := s.eff.records ++ [rec] },
        logIdx := s.logIdx, recIdx := s.recIdx + 1, notIdx := s.notIdx } := by
  simp [pRecord, hrec]

theorem pNotify_ok (c : Collab) (hnot : ∀ i, c.notifyOutcome i = .ok ())
    (s : PState) (category : String) :
    pNotify c s category = .ok
      { eff := { s.eff with notifications := s.eff.notifications ++ [category] },
        logIdx := s.logIdx, recIdx := s.recIdx, notIdx := s.notIdx + 1 } := by
  simp [pNotify, hnot]

theorem tradeBody_cases (c : Collab) (opp : ArbitrageOpportunity) (sim : Bool) (s0 : PState)
    (hlog : ∀ i, c.logOutcome i = .ok ())
    (hrec : ∀ i, c.recordOutcome i = .ok ())
    (hnot : ∀ i, c.notifyOutcome i = .ok ()) :
    match tradeBody c opp sim s0 with
    | .error (_, s) => s.eff.records = s0.eff.records
    | .ok (r, s) => r.success = true ∧
        ∃ rec, s.eff.records = s0.eff.records ++ [rec] ∧
          rec.status = (if sim then "success" else "pending") := by
  cases hc : c.getBotConfig with
  | error e => simp [tradeBody, pbind, pLog_ok c hlog, hc]
  | ok oc =>
  cases oc with
  | none => simp [tradeBody, pbind, pLog_ok c hlog, hc]
  | some cfg =>
  cases sim with
  | true =>
    cases hg : c.getGasPrice with
    | error e => simp [tradeBody, pbind, pLog_ok c hlog, hc, hg]
    | ok g =>
    by_cases hgh : jsNumOr cfg.maxGasPriceGwei 60 < g
    · simp [tradeBody, pbind, pLog_ok c hlog, hc, hg, hgh]
    · by_cases hth : opp.estimatedProfitUsd ≥ cfg.telegramProfitThresholdUsd.getD 10 <;>
        simp [tradeBody, simBranch, pbind, pLog_ok c hlog, pRecord_ok c hrec,
              pNotify_ok c hnot, hc, hg, hgh, hth, simRecord]
  | false =>
  by_cases hrt : cfg.enableRealTrading = true
  case neg => simp [tradeBody, pbind, pLog_ok c hlog, hc, hrt]
  case pos =>
  by_cases hpk : jsTruthyStr (jsStrOr cfg.privateKey c.envPrivateKey) = true
  case neg =>
    simp only [Bool.not_eq_true] at hpk
    simp [tradeBody, pbind, pLog_ok c hlog, hc, hrt, hpk]
  case pos =>
  cases hdw : c.deriveWallet ((jsStrOr cfg.privateKey c.envPrivateKey).getD "") with
  | error e =>
    cases hg : c.getGasPrice with
    | error e2 =>
      simp [tradeBody, balanceTry, balanceInner, pbind, pLog_ok c hlog, hc, hrt, hpk,
            hdw, hg]
    | ok g =>
    by_cases hgh : jsNumOr cfg.maxGasPriceGwei 60 < g
    · simp [tradeBody, balanceTry, balanceInner, pbind, pLog_ok c hlog, hc, hrt, hpk,
            hdw, hg, hgh]
    · cases hq0 : c.buildSwap 0 { src := opp.tokenIn.address, dst := opp.tokenOut.address,
                                   amount := opp.flashLoanAmount * (10 : ℚ) ^ opp.tokenIn.decimals,
                                   sender := cfg.privateKey } with
      | error e3 =>
        simp [tradeBody, realBranch, balanceTry, balanceInner, pbind, pLog_ok c hlog,
              hc, hrt, hpk, hdw, hg, hgh, hq0]
      | ok q0 =>
      cases hq1 : c.buildSwap 1 { src := opp.tokenOut.address, dst := opp.tokenIn.address,
                                   amount := q0.toAmount, sender := cfg.privateKey } with
      | error e4 =>
        simp [tradeBody, realBranch, balanceTry, balanceInner, pbind, pLog_ok c hlog,
              hc, hrt, hpk, hdw, hg, hgh, hq0, hq1]
      | ok q1 =>
        simp [tradeBody, realBranch, balanceTry, balanceInner, pbind, pLog_ok c hlog,
              pRecord_ok c hrec, pNotify_ok c hnot, hc, hrt, hpk, hdw, hg, hgh,
              hq0, hq1, pendingRecord]
  | ok addr =>
  cases hbal : c.getNativeBalance addr (if cfg.networkMode = "mainnet" then 137 else 80002) with
  | error e =>
    cases hg : c.getGasPrice with
    | error e2 =>
      simp [tradeBody, balanceTry, balanceInner, pbind, pLog_ok c hlog, hc, hrt, hpk,
            hdw, hbal, hg]
    | ok g =>
    by_cases hgh : jsNumOr cfg.maxGasPriceGwei 60 < g
    · simp [tradeBody, balanceTry, balanceInner, pbind, pLog_ok c hlog, hc, hrt, hpk,
            hdw, hbal, hg, hgh]
    · cases hq0 : c.buildSwap 0 { src := opp.tokenIn.address, dst := opp.tokenOut.address,
                                   amount := opp.flashLoanAmount * (10 : ℚ) ^ opp.tokenIn.decimals,
                                   sender := cfg.privateKey } with
      | error e3 =>
        simp [tradeBody, realBranch, balanceTry, balanceInner, pbind, pLog_ok c hlog,
              hc, hrt, hpk, hdw, hbal, hg, hgh, hq0]
      | ok q0 =>
      cases hq1 : c.buildSwap 1 { src := opp.tokenOut.address, dst := opp.tokenIn.address,
                                   amount := q0.toAmount, sender := cfg.privateKey } with
      | error e4 =>
        simp [tradeBody, realBranch, balanceTry, balanceInner, pbind, pLog_ok c hlog,
              hc, hrt, hpk, hdw, hbal, hg, hgh, hq0, hq1]
      | ok q1 =>
        simp [tradeBody, realBranch, balanceTry, balanceInner, pbind, pLog_ok c hlog,
              pRecord_ok c hrec, pNotify_ok c hnot, hc, hrt, hpk, hdw, hbal, hg, hgh,
              hq0, hq1, pendingRecord]
  | ok bal =>
  by_cases hb : bal < (10:ℚ)⁻¹ <;>
  · cases hg : c.getGasPrice with
    | error e2 =>
      simp [tradeBody, balanceTry, balanceInner, pbind, pLog_ok c hlog, hc, hrt, hpk,
            hdw, hbal, hb, hg]
    | ok g =>
    by_cases hgh : jsNumOr cfg.maxGasPriceGwei 60 < g
    · simp [tradeBody, balanceTry, balanceInner, pbind, pLog_ok c hlog, hc, hrt, hpk,
            hdw, hbal, hb, hg, hgh]
    · cases hq0 : c.buildSwap 0 { src := opp.tokenIn.address, dst := opp.tokenOut.address,
                                   amount := opp.flashLoanAmount * (10 : ℚ) ^ opp.tokenIn.decimals,
                                   sender := cfg.privateKey } with
      | error e3 =>
        simp [tradeBody, realBranch, balanceTry, balanceInner, pbind, pLog_ok c hlog,
              hc, hrt, hpk, hdw, hbal, hb, hg, hgh, hq0]
      | ok q0 =>
      cases hq1 : c.buildSwap 1 { src := opp.tokenOut.address, dst := opp.tokenIn.address,
                                   amount := q0.toAmount, sender := cfg.privateKey } with
      | error e4 =>
        simp [tradeBody, realBranch, balanceTry, balanceInner, pbind, pLog_ok c hlog,
              hc, hrt, hpk, hdw, hbal, hb, hg, hgh, hq0, hq1]
      | ok q1 =>
        simp [tradeBody, realBranch, balanceTry, balanceInner, pbind, pLog_ok c hlog,
              pRecord_ok c hrec, pNotify_ok c hnot, hc, hrt, hpk, hdw, hbal, hb, hg,
              hgh, hq0, hq1, pendingRecord]

theorem C4_single_record_amended (c : Collab) (u : String) (opp : ArbitrageOpportunity)
    (sim : Bool)
    (hlog : ∀ i, c.logOutcome i = .ok ())
    (hrec : ∀ i, c.recordOutcome i = .ok ())
    (hnot : ∀ i, c.notifyOutcome i = .ok ()) :
    (executeArbitrageTrade c u opp sim).isThrown = false ∧
    ∃ st, ((executeArbitrageTrade c u opp sim).effOf.records.map (fun r => r.status)) = [st] ∧
      (st = "success" ∨ st = "pending" ∨ st = "failed") ∧
      ((executeArbitrageTrade c u opp sim).retSuccess = some true →
        st = (if sim then "success" else "pending")) ∧
      ((executeArbitrageTrade c u opp sim).retSuccess = some false → st = "failed") ∧
      (st = "pending" →
        sim = false ∧ (executeArbitrageTrade c u opp sim).retSuccess = some true) := by
  have hcases := tradeBody_cases c opp sim initPState hlog hrec hnot
  unfold executeArbitrageTrade
  cases ht : tradeBody c opp sim initPState with
  | ok rs =>
      obtain ⟨r, s⟩ := rs
      rw [ht] at hcases
      obtain ⟨hsucc, rec, hrecs, hst⟩ := hcases
      cases sim <;>
        simp_all [Outcome.isThrown, Outcome.effOf, Outcome.retSuccess,
                  initPState, Effects.empty]
  | error es =>
      obtain ⟨e, s⟩ := es
      rw [ht] at hcases
      dsimp only []
      rw [catchBlock_eq c opp e s (hlog _) (hrec _)]
      refine ⟨rfl, "failed", ?_, by simp, ?_, ?_, by simp⟩
      · simp [Outcome.effOf, hcases, initPState, Effects.empty, failedRecord]
      · intro hfalse
        simp [Outcome.retSuccess] at hfalse
      · intro _
        rfl

/-- C4 amended witness at a concrete all-succeeding behavior. -/
theorem C4_amended_witness :
    (executeArbitrageTrade collabOk "user-1" oppA true).isThrown = false ∧
    ∃ st, ((executeArbitrageTrade collabOk "user-1" oppA true).effOf.records.map
        (fun r => r.status)) = [st] ∧
      (st = "success" ∨ st = "pending" ∨ st = "failed") ∧
      ((executeArbitrageTrade collabOk "user-1" oppA true).retSuccess = some true →
        st = (if true then "success" else "pending")) ∧
      ((executeArbitrageTrade collabOk "user-1" oppA true).retSuccess = some false →
        st = "failed") ∧
      (st = "pending" →
        true = false ∧ (executeArbitrageTrade collabOk "user-1" oppA true).retSuccess
          = some true) :=
  C4_single_record_amended collabOk "user-1" oppA true
    (fun _ => rfl) (fun _ => rfl) (fun _ => rfl)
